import Mathlib

/-!
Formal model of scrape_nara.js, a Puppeteer script that captures API
responses while rendering a National Archives catalog page, clicks
through 14 page thumbnails collecting a per-page result list, writes two
JSON files and closes the browser; plus its downloadFile helper.

External effects (browser calls, network, filesystem) are modelled by
explicit environments recording the outcome of each awaited step; an
awaited call that throws appears as an error value, and control flow is
the exact try/catch structure of the source.
-/

/-- Substring test on strings, modelling the JavaScript String.includes. -/
def strContains (s pat : String) : Bool := decide (pat.data <:+: s.data)

/-- Parsed JSON values, the result of a successful response.json() call. -/
inductive Json where
  | null
  | bool (b : Bool)
  | num (n : Int)
  | str (s : String)
  | arr (elems : List Json)
  | obj (fields : List (String × Json))

/-- One network response delivered to the response observer: its URL and,
when the body parses as JSON, the parsed body (none when response.json()
throws because the body is not JSON). -/
structure NetResponse where
  url : String
  jsonBody : Option Json

/-- One element of the apiResponses capture sequence (line 55 of the
source): the url and data fields pushed by the observer. -/
structure Capture where
  url : String
  data : Json

/-- URL filter of the response observer (line 52). -/
def matchesEndpoint (url : String) : Bool :=
  strContains url "/records/" || strContains url "/transcription" || strContains url "/contributions"

/-- One invocation of the response observer (lines 50-60), acting on the
pair of the capture sequence and the console log. A matching URL whose
body parses appends one element; a matching URL whose body fails to parse
is skipped by the empty catch block, emitting no log line; a non-matching
URL is ignored entirely. -/
def handleResponse (st : List Capture × List String) (r : NetResponse) : List Capture × List String :=
  if matchesEndpoint r.url then
    match r.jsonBody with
    | some d => (st.1 ++ [⟨r.url, d⟩], st.2)
    | none => st
  else st

/-- Capture sequence and observer log after a list of responses has
arrived in order, starting from the empty sequence of line 44. -/
def captureRun (rs : List NetResponse) : List Capture × List String :=
  rs.foldl handleResponse ([], [])

/-- Outcome of the network transfer underlying one downloadFile call:
either the request object emits an error event (a connection-level
failure, before any body bytes are written), or a response arrives with a
status code and a body stream that either runs to completion or is
interrupted after the chunks seen so far. -/
inductive DlEvent where
  | requestError (msg : String)
  | response (status : Nat) (chunks : List Nat) (complete : Bool)

/-- Settlement state of the promise returned by downloadFile. -/
inductive DlResult where
  | resolved
  | rejected (msg : String)
  | pending
  deriving DecidableEq

/-- Observable outcome of one downloadFile call: the final content at
filepath (none when no file remains there) and the promise settlement. -/
structure DlOutcome where
  fileAt : Option (List Nat)
  result : DlResult
  deriving DecidableEq

/-- Model of downloadFile (lines 14-29). createWriteStream opens the file
at filepath; the single error handler is installed on the request object
and it unlinks the file and rejects (lines 24-27); the response is piped
into the file stream and resolve is called from the finish event of the
file stream (lines 19-23). Encoded Node stream semantics: a
connection-level failure fires the request error event, so the file is
removed and the promise rejects; an error on the response stream mid-body
is not forwarded by pipe to the file stream, so finish never fires, no
installed handler runs, the promise stays pending and the bytes already
piped remain at filepath; the status code of the response is never
inspected, its body is piped to the file whatever the status. -/
def downloadFile (ev : DlEvent) : DlOutcome :=
  match ev with
  | .requestError msg => { fileAt := none, result := .rejected msg }
  | .response _ chunks true => { fileAt := some chunks, result := .resolved }
  | .response _ chunks false => { fileAt := some chunks, result := .pending }

/-- One entry of the results list (lines 159-163). -/
structure PageResult where
  page : Nat
  imageUrl : Option String
  transcription : String
  deriving DecidableEq

/-- Outcomes of the awaited browser calls inside one iteration of the
page loop. An Except.error value means the call threw. wait is
waitForSelector (line 101, none means it succeeded); clickEval is the
click evaluate returning the clicked flag (lines 104-119); imageEval is
the image URL evaluate (lines 124-132); tabEval is the transcription tab
evaluate (lines 137-146); textEval is the transcription text evaluate
(lines 150-153). -/
structure PageEnv where
  wait : Option String
  clickEval : Except String Bool
  imageEval : Except String (Option String)
  tabEval : Except String Bool
  textEval : Except String String

/-- Console line of line 96. -/
def procLog (i : Nat) : String := "Processing page " ++ toString i ++ " of 14..."

/-- Console line of line 169, emitted by the outer per-page catch. -/
def errLog (i : Nat) (msg : String) : String :=
  "Error processing page " ++ toString i ++ ": " ++ msg

/-- Console line of line 156, emitted by the inner transcription catch. -/
def couldNotLog (i : Nat) : String := "Could not get transcription for page " ++ toString i

/-- Console line of line 165, with the truthiness test of the source. -/
def imgSummaryLog (i : Nat) (u : Option String) : String :=
  "Page " ++ toString i ++ ": Image URL: " ++
    (match u with
     | some s => if s.isEmpty then "Not found" else "Found"
     | none => "Not found")

/-- Console line of line 166, with the truthiness test of the source. -/
def trSummaryLog (i : Nat) (t : String) : String :=
  "Page " ++ toString i ++ ": Transcription: " ++
    (if t.isEmpty then "Not found" else t.take 100 ++ "...")

/-- Transcription sub-step (lines 134-157): the inner try block reads the
tab and, when a tab was found and clicked, the transcription text; any
throw is caught locally, leaving the transcription at its initial empty
string and logging the could-not line. Returns the resulting
transcription value and the log lines emitted. -/
def transcriptionStep (i : Nat) (env : PageEnv) : String × List String :=
  match env.tabEval with
  | .error _ => ("", [couldNotLog i])
  | .ok false => ("", [])
  | .ok true =>
    match env.textEval with
    | .error _ => ("", [couldNotLog i])
    | .ok t => (t, [])

/-- One iteration of the page loop (lines 95-171): the outer try covers
waitForSelector, the click evaluate, the image URL evaluate and the
transcription sub-step; results.push sits inside that try (line 159), so
a throw from wait, click or image read reaches the outer catch, which
only logs, and no entry is pushed for that page. Returns the pushed entry
(none when the outer catch ran) and the log lines of the iteration. -/
def processPage (i : Nat) (env : PageEnv) : Option PageResult × List String :=
  match env.wait with
  | some e => (none, [procLog i, errLog i e])
  | none =>
    match env.clickEval with
    | .error e => (none, [procLog i, errLog i e])
    | .ok _ =>
      match env.imageEval with
      | .error e => (none, [procLog i, errLog i e])
      | .ok u =>
        let ts := transcriptionStep i env
        (some { page := i, imageUrl := u, transcription := ts.1 },
          [procLog i] ++ ts.2 ++ [imgSummaryLog i u, trSummaryLog i ts.1])

/-- Loop indices of line 95: i runs from 1 to 14. -/
def pageIndices : List Nat := (List.range 14).map (fun k => k + 1)

/-- Results list accumulated by the page loop (line 93 and line 159). -/
def pageLoopResults (envs : Nat → PageEnv) : List PageResult :=
  pageIndices.foldl (fun acc i => acc ++ ((processPage i (envs i)).1).toList) []

/-- Console lines accumulated by the page loop. -/
def pageLoopLogs (envs : Nat → PageEnv) : List String :=
  pageIndices.foldl (fun acc i => acc ++ (processPage i (envs i)).2) []

/-- Outcomes of the whole-run awaited steps outside the page loop. launch
covers puppeteer.launch, newPage, setViewport and setRequestInterception
(lines 33-42); goto is the navigation of lines 63-66; itemData is the
metadata evaluate of lines 72-85; pages gives the per-page outcomes;
responses is the stream of network responses seen by the response
observer during the run; writeApi and writeResults are the two
writeFileSync calls of lines 177 and 180. -/
structure RunEnv where
  launch : Option String
  goto : Option String
  itemData : Option String
  pages : Nat → PageEnv
  responses : List NetResponse
  writeApi : Option String
  writeResults : Option String

/-- Observable state at the end of one run of scrapeNARA: whether
browser.close of line 182 ran, the content written to api_responses.json
and to scrape_results.json (none when the file was not written), the
number of page-loop iterations entered, the rejection value of the
returned promise when it rejected, and the console log. -/
structure RunState where
  browserClosed : Bool
  apiContent : Option (List Capture)
  resultsContent : Option (List PageResult)
  pagesProcessed : Nat
  error : Option String
  logs : List String

/-- Console line of line 32. -/
def launchingLog : String := "Launching browser..."

/-- Console line of line 62. -/
def navigatingLog : String := "Navigating to National Archives catalog page..."

/-- Console line of line 68. -/
def waitingLog : String := "Waiting for content to load..."

/-- Console line of line 87, with the payload elided. -/
def itemDataLog : String := "Item data:"

/-- Console line of line 174. -/
def capturedLog (n : Nat) : String := "Captured " ++ toString n ++ " API responses"

/-- Console line of line 183. -/
def closedLog : String := "Browser closed. Results saved to scrape_results.json"

/-- Model of one run of scrapeNARA (lines 31-184). Each awaited step
either succeeds or throws; a throw anywhere outside the per-page try
blocks aborts the rest of the function body, so later steps, including
browser.close on line 182, do not run, and the throw surfaces as the
rejection of the returned promise, recorded in the error field. The page
loop itself never throws out: every iteration catches its own
exceptions, so once it is reached all 14 iterations are entered. -/
def scrapeNARA (env : RunEnv) : RunState :=
  match env.launch with
  | some e =>
    { browserClosed := false, apiContent := none, resultsContent := none,
      pagesProcessed := 0, error := some e, logs := [launchingLog] }
  | none =>
    match env.goto with
    | some e =>
      { browserClosed := false, apiContent := none, resultsContent := none,
        pagesProcessed := 0, error := some e, logs := [launchingLog, navigatingLog] }
    | none =>
      match env.itemData with
      | some e =>
        { browserClosed := false, apiContent := none, resultsContent := none,
          pagesProcessed := 0, error := some e,
          logs := [launchingLog, navigatingLog, waitingLog] }
      | none =>
        let captures := (captureRun env.responses).1
        let results := pageLoopResults env.pages
        let baseLogs := [launchingLog, navigatingLog, waitingLog, itemDataLog] ++
          pageLoopLogs env.pages ++ [capturedLog captures.length]
        match env.writeApi with
        | some e =>
          { browserClosed := false, apiContent := none, resultsContent := none,
            pagesProcessed := 14, error := some e, logs := baseLogs }
        | none =>
          match env.writeResults with
          | some e =>
            { browserClosed := false, apiContent := some captures, resultsContent := none,
              pagesProcessed := 14, error := some e, logs := baseLogs }
          | none =>
            { browserClosed := true, apiContent := some captures,
              resultsContent := some results, pagesProcessed := 14, error := none,
              logs := baseLogs ++ [closedLog] }

/-- What console.error prints for a rejection value at line 186. -/
def topErrorLog (e : String) : String := "console.error: " ++ e

/-- How the Node process can end: a normal exit carrying a status code,
or no exit at all, the event loop being kept alive by live handles. -/
inductive ProcOutcome where
  | exited (code : Nat)
  | hung
  deriving DecidableEq

/-- Observable outcome of the whole process: its termination behavior and
the console log. -/
structure MainOutcome where
  outcome : ProcOutcome
  logs : List String

/-- Whether the run ends with a browser session still open: a session
exists once puppeteer.launch succeeded, and it stays open whenever
browser.close on line 182 did not run. An open session means a live
Chrome child process and an open DevTools connection. -/
def browserLeftOpen (env : RunEnv) : Bool :=
  decide (env.launch = none) && !(scrapeNARA env).browserClosed

/-- Model of the top-level invocation of line 186, where the promise of
scrapeNARA gets console.error attached as its rejection handler, combined
with Node termination semantics. A rejection is handled: console.error
logs it, so the default non-zero exit of an unhandled rejection never
occurs. Node then exits, with status 0, only once the event loop drains;
an unclosed browser session is a live handle (the spawned Chrome child
process and its open DevTools connection), so a run that launched a
browser and failed before closing it leaves the process hanging, never
exiting at all. -/
def mainRun (env : RunEnv) : MainOutcome :=
  match (scrapeNARA env).error with
  | some e =>
    { outcome := if browserLeftOpen env then ProcOutcome.hung else ProcOutcome.exited 0,
      logs := (scrapeNARA env).logs ++ [topErrorLog e] }
  | none =>
    { outcome := if browserLeftOpen env then ProcOutcome.hung else ProcOutcome.exited 0,
      logs := (scrapeNARA env).logs }

/-- Per-page environment in which every sub-step succeeds. -/
def okEnv : PageEnv :=
  { wait := none, clickEval := .ok true,
    imageEval := .ok (some "https://s3.amazonaws.com/NARAprodstorage/img.jpg"),
    tabEval := .ok true, textEval := .ok "John Hough pension file" }

/-- Run environment in which every step succeeds. -/
def okRunEnv : RunEnv :=
  { launch := none, goto := none, itemData := none, pages := fun _ => okEnv,
    responses := [], writeApi := none, writeResults := none }

/-- Pages all succeed except page 7, whose waitForSelector times out. -/
def c1Envs : Nat → PageEnv := fun i =>
  if i = 7 then { okEnv with wait := some "waiting for selector failed: timeout 5000ms exceeded" }
  else okEnv

/-- Run whose only failure is the page 7 waitForSelector timeout. -/
def c1RunEnv : RunEnv := { okRunEnv with pages := c1Envs }

/-- Pages all succeed except page 7, whose thumbnail click evaluate throws. -/
def c2Envs : Nat → PageEnv := fun i =>
  if i = 7 then { okEnv with clickEval := .error "Evaluation failed: node detached" }
  else okEnv

/-- Run whose only failure is the initial navigation timing out. -/
def navFailEnv : RunEnv :=
  { okRunEnv with goto := some "Navigation timeout of 60000 ms exceeded" }

/-- Helper: a pattern is contained in any string it is an infix of. -/
theorem strContains_of_infix (s pat : String) (h : pat.data <:+: s.data) :
    strContains s pat = true := by
  unfold strContains
  exact decide_eq_true h

/-- C5: an intercepted response whose URL matches an endpoint substring
but whose body fails to parse as JSON leaves the capture sequence and the
console log exactly as they were: nothing is appended for that response
and nothing is logged, the parse failure being swallowed by the empty
catch block of lines 56-58. -/
theorem non_json_response_skipped (st : List Capture × List String) (r : NetResponse)
    (hm : matchesEndpoint r.url = true) (hb : r.jsonBody = none) :
    handleResponse st r = st := by
  unfold handleResponse
  rw [hb, hm]
  simp

/-- Concrete instance of non_json_response_skipped: an HTML error body
served from a records URL is dropped without any state change. -/
theorem non_json_response_skipped_witness :
    handleResponse ([], []) ⟨"https://catalog.archives.gov/proxy/v3/records/search", none⟩ = ([], []) :=
  non_json_response_skipped ([], [])
    ⟨"https://catalog.archives.gov/proxy/v3/records/search", none⟩ (by decide) rfl

/-- C8 counterexample: a response stream interrupted after four bytes
leaves the truncated file at filepath and the promise pending; nothing
removes the file and no rejection surfaces, contrary to the claim that
every failed download removes the partial file and rejects. -/
theorem interrupted_download_keeps_file :
    downloadFile (DlEvent.response 200 [137, 80, 78, 71] false) =
      { fileAt := some [137, 80, 78, 71], result := DlResult.pending } := rfl

/-- C8 (amended): the partial file is removed and the promise rejected
exactly when the request object itself emits a connection-level error, in
which case the error surfaces to the caller as the rejection value; an
interrupted response stream instead leaves the truncated file in place
with the promise unsettled. -/
theorem download_failure_semantics (ev : DlEvent) :
    ((downloadFile ev).fileAt = none ↔ ∃ msg, ev = DlEvent.requestError msg) ∧
    ((∃ msg, (downloadFile ev).result = DlResult.rejected msg) ↔
      ∃ msg, ev = DlEvent.requestError msg) ∧
    ∀ msg, ev = DlEvent.requestError msg →
      downloadFile ev = { fileAt := none, result := DlResult.rejected msg } := by
  cases ev with
  | requestError m => refine ⟨?_, ?_, ?_⟩ <;> simp [downloadFile]
  | response s chunks c => cases c <;> refine ⟨?_, ?_, ?_⟩ <;> simp [downloadFile]

/-- Concrete instance of download_failure_semantics at a connection
refusal: the file is removed and the promise rejects with that error. -/
theorem download_failure_semantics_witness :
    downloadFile (DlEvent.requestError "connect ECONNREFUSED") =
      { fileAt := none, result := DlResult.rejected "connect ECONNREFUSED" } :=
  (download_failure_semantics (DlEvent.requestError "connect ECONNREFUSED")).2.2 _ rfl

/-- C10: when the request succeeds and the body completes, the promise
resolves on the finish event of the file stream and the body is retained
at filepath whatever the status code, a 404 error page included; an
interrupted body is also retained; deletion together with rejection
happens only in the connection-level request-error case. -/
theorem download_ignores_status (status : Nat) (chunks : List Nat) (msg : String) :
    downloadFile (DlEvent.response status chunks true) =
      { fileAt := some chunks, result := DlResult.resolved } ∧
    downloadFile (DlEvent.response status chunks false) =
      { fileAt := some chunks, result := DlResult.pending } ∧
    downloadFile (DlEvent.requestError msg) =
      { fileAt := none, result := DlResult.rejected msg } :=
  ⟨rfl, rfl, rfl⟩

/-- C7: when the navigation of lines 63-66 fails, scrapeNARA rejects
before the page loop, so no loop iteration is entered and neither
api_responses.json nor scrape_results.json is written in that run. -/
theorem nav_failure_no_outputs (env : RunEnv) (e : String) (h : env.goto = some e) :
    (scrapeNARA env).pagesProcessed = 0 ∧
    (scrapeNARA env).apiContent = none ∧ (scrapeNARA env).resultsContent = none := by
  unfold scrapeNARA
  cases hl : env.launch with
  | some e2 => simp
  | none => rw [h]; simp

/-- Concrete instance of nav_failure_no_outputs at the navigation-timeout
run: no iteration entered, no file written. -/
theorem nav_failure_no_outputs_witness :
    (scrapeNARA navFailEnv).pagesProcessed = 0 ∧
    (scrapeNARA navFailEnv).apiContent = none ∧
    (scrapeNARA navFailEnv).resultsContent = none :=
  nav_failure_no_outputs navFailEnv "Navigation timeout of 60000 ms exceeded" rfl

/-- C3 counterexample: in the run whose navigation times out, scrapeNARA
rejects at line 63 and the straight-line code after it, including
browser.close on line 182, never runs: the browser session is not closed,
contrary to the claim that it is closed on every run however it ends. -/
theorem nav_failure_browser_not_closed :
    (scrapeNARA navFailEnv).error = some "Navigation timeout of 60000 ms exceeded" ∧
    (scrapeNARA navFailEnv).browserClosed = false := ⟨rfl, rfl⟩

/-- C3 (amended): browser.close runs exactly in those runs where launch,
navigation, the metadata evaluate and both file writes all succeed; a
failure at any of them aborts scrapeNARA before line 182 and the browser
session is left open (on a launch failure no session exists at all). -/
theorem browser_closed_iff (env : RunEnv) :
    (scrapeNARA env).browserClosed = true ↔
      (env.launch = none ∧ env.goto = none ∧ env.itemData = none ∧
        env.writeApi = none ∧ env.writeResults = none) := by
  unfold scrapeNARA
  cases env.launch <;> cases env.goto <;> cases env.itemData <;>
    cases env.writeApi <;> cases env.writeResults <;> simp

/-- Concrete instance of browser_closed_iff: the all-success run does
close the browser. -/
theorem browser_closed_iff_witness : (scrapeNARA okRunEnv).browserClosed = true :=
  (browser_closed_iff okRunEnv).mpr ⟨rfl, rfl, rfl, rfl, rfl⟩

/-- C4 counterexample: the navigation-timeout run is a top-level failure
and the rejection is handled and logged by the console.error catch
handler of line 186, but the process does not terminate with a non-zero
status: the browser launched and was never closed, so the Chrome child
process and its DevTools connection keep the event loop alive and the
process hangs, never exiting at all. -/
theorem top_failure_process_hangs :
    (scrapeNARA navFailEnv).error = some "Navigation timeout of 60000 ms exceeded" ∧
    (mainRun navFailEnv).outcome = ProcOutcome.hung := ⟨rfl, rfl⟩

/-- C4 (amended): a top-level failure is caught by the catch handler of
line 186, which logs the rejection value via console.error, so the
default non-zero exit of an unhandled rejection never occurs: whenever
the process exits, its status is 0. It exits at all exactly when no
browser session is left open; a run that launched the browser and then
failed anywhere before browser.close leaves the session open, so the
process hangs instead of exiting, while a launch failure or a fully
successful run drains the event loop and exits with status 0. -/
theorem process_termination (env : RunEnv) :
    ((mainRun env).outcome = ProcOutcome.exited 0 ∨ (mainRun env).outcome = ProcOutcome.hung) ∧
    (∀ e, (scrapeNARA env).error = some e → topErrorLog e ∈ (mainRun env).logs) ∧
    ((mainRun env).outcome = ProcOutcome.hung ↔
      env.launch = none ∧ (scrapeNARA env).browserClosed = false) := by
  have houtcome : (mainRun env).outcome =
      if browserLeftOpen env then ProcOutcome.hung else ProcOutcome.exited 0 := by
    unfold mainRun
    cases (scrapeNARA env).error <;> rfl
  refine ⟨?_, ?_, ?_⟩
  · rw [houtcome]
    by_cases hb : browserLeftOpen env = true <;> simp [hb]
  · intro e he
    unfold mainRun
    rw [he]
    simp
  · rw [houtcome]
    unfold browserLeftOpen
    by_cases h1 : env.launch = none
    · by_cases h2 : (scrapeNARA env).browserClosed = true <;> simp [h1, h2]
    · simp [h1]

/-- Concrete instance of process_termination at the navigation-timeout
run: the error is logged and the process hangs rather than exiting. -/
theorem process_termination_witness :
    topErrorLog "Navigation timeout of 60000 ms exceeded" ∈ (mainRun navFailEnv).logs ∧
    (mainRun navFailEnv).outcome = ProcOutcome.hung :=
  ⟨(process_termination navFailEnv).2.1 _ rfl,
   (process_termination navFailEnv).2.2.mpr ⟨rfl, rfl⟩⟩

/-- Helper: the push-style fold of the loop equals a filterMap over the
iterated indices. -/
theorem foldl_push_toList (g : Nat → Option PageResult) (is : List Nat) (acc : List PageResult) :
    is.foldl (fun a i => a ++ (g i).toList) acc = acc ++ is.filterMap g := by
  induction is generalizing acc with
  | nil => simp
  | cons j js ih => cases hj : g j <;> simp [ih, hj, List.filterMap_cons]

/-- Helper: the log-accumulation fold of the loop equals a flatten of the
per-iteration log lists. -/
theorem foldl_append_logs (g : Nat → List String) (is : List Nat) (acc : List String) :
    is.foldl (fun a i => a ++ g i) acc = acc ++ (is.map g).flatten := by
  induction is generalizing acc with
  | nil => simp
  | cons j js ih => simp [ih]

/-- Helper: closed form of the results list of the page loop. -/
theorem pageLoopResults_eq (envs : Nat → PageEnv) :
    pageLoopResults envs = pageIndices.filterMap (fun i => (processPage i (envs i)).1) := by
  simpa [pageLoopResults] using
    foldl_push_toList (fun i => (processPage i (envs i)).1) pageIndices []

/-- Helper: closed form of the console lines of the page loop. -/
theorem pageLoopLogs_eq (envs : Nat → PageEnv) :
    pageLoopLogs envs = (pageIndices.map (fun i => (processPage i (envs i)).2)).flatten := by
  simpa [pageLoopLogs] using
    foldl_append_logs (fun i => (processPage i (envs i)).2) pageIndices []

/-- Helper: when wait, click and image read succeed, the iteration pushes
the entry built from the page number, the image URL read and the
transcription produced by the transcription sub-step. -/
theorem processPage_ok (i : Nat) (env : PageEnv) (c : Bool) (u : Option String)
    (hw : env.wait = none) (hc : env.clickEval = Except.ok c) (hu : env.imageEval = Except.ok u) :
    (processPage i env).1 =
      some { page := i, imageUrl := u, transcription := (transcriptionStep i env).1 } := by
  unfold processPage
  rw [hw, hc, hu]

/-- Helper: a waitForSelector timeout reaches the outer catch, which only
logs; nothing is pushed. -/
theorem processPage_wait_error (i : Nat) (env : PageEnv) (m : String)
    (hw : env.wait = some m) :
    processPage i env = (none, [procLog i, errLog i m]) := by
  unfold processPage
  rw [hw]

/-- Helper: a click evaluate throw reaches the outer catch, which only
logs; nothing is pushed. -/
theorem processPage_click_error (i : Nat) (env : PageEnv) (m : String)
    (hw : env.wait = none) (hc : env.clickEval = Except.error m) :
    processPage i env = (none, [procLog i, errLog i m]) := by
  unfold processPage
  rw [hw, hc]

/-- Helper: under per-page success of wait, click and image read for all
iterated indices, the page fields of the pushed entries are exactly the
index list. -/
theorem results_pages_of_ok (envs : Nat → PageEnv) (is : List Nat)
    (h : ∀ i ∈ is, (envs i).wait = none ∧ (∃ c, (envs i).clickEval = Except.ok c) ∧
      (∃ u, (envs i).imageEval = Except.ok u)) :
    (is.filterMap (fun i => (processPage i (envs i)).1)).map (fun r => r.page) = is := by
  induction is with
  | nil => simp
  | cons j js ih =>
    obtain ⟨hw, ⟨c, hc⟩, ⟨u, hu⟩⟩ := h j (List.mem_cons_self j js)
    have hj := processPage_ok j (envs j) c u hw hc hu
    simp [List.filterMap_cons, hj, ih (fun i hi => h i (List.mem_cons_of_mem j hi))]

/-- C9: when page i reaches the transcription sub-step (wait, click and
image read all succeeded) and that sub-step throws, at the tab evaluate
or at the text evaluate, only the transcription degrades: the entry is
still pushed with the previously read image URL intact and an empty
transcription, and the failure shows up only as the could-not log line. -/
theorem transcription_failure_local (i : Nat) (env : PageEnv) (c : Bool) (u : Option String)
    (m : String)
    (hw : env.wait = none) (hc : env.clickEval = Except.ok c) (hu : env.imageEval = Except.ok u)
    (ht : env.tabEval = Except.error m ∨
      (env.tabEval = Except.ok true ∧ env.textEval = Except.error m)) :
    processPage i env =
      (some { page := i, imageUrl := u, transcription := "" },
       [procLog i, couldNotLog i, imgSummaryLog i u, trSummaryLog i ""]) := by
  have hts : transcriptionStep i env = ("", [couldNotLog i]) := by
    rcases ht with h1 | ⟨h2, h3⟩
    · unfold transcriptionStep
      rw [h1]
    · unfold transcriptionStep
      rw [h2, h3]
  unfold processPage
  rw [hw, hc, hu, hts]
  rfl

/-- Per-page environment whose only failure is a throw of the
transcription text evaluate. -/
def c9Env : PageEnv := { okEnv with textEval := .error "Execution context was destroyed" }

/-- Concrete instance of transcription_failure_local on page 3: the entry
keeps the image URL, the transcription is empty, the could-not line is
logged. -/
theorem transcription_failure_local_witness :
    processPage 3 c9Env =
      (some { page := 3,
              imageUrl := some "https://s3.amazonaws.com/NARAprodstorage/img.jpg",
              transcription := "" },
       [procLog 3, couldNotLog 3,
        imgSummaryLog 3 (some "https://s3.amazonaws.com/NARAprodstorage/img.jpg"),
        trSummaryLog 3 ""]) :=
  transcription_failure_local 3 c9Env true
    (some "https://s3.amazonaws.com/NARAprodstorage/img.jpg")
    "Execution context was destroyed" rfl rfl rfl (Or.inr ⟨rfl, rfl⟩)

/-- Helper: dropping a single index by mapping it to none is the same as
filtering it out. -/
theorem filterMap_skip_eq_filter (j : Nat) (is : List Nat) :
    is.filterMap (fun i => if i = j then none else some i) =
      is.filter (fun i => decide (i ≠ j)) := by
  induction is with
  | nil => simp
  | cons a l ih => by_cases ha : a = j <;> simp [ha, ih]

/-- C1 counterexample: the run c1RunEnv reaches every loop iteration and
even ends without error, all sub-steps succeed except that page 7's
waitForSelector times out, yet scrape_results.json receives 13 entries
rather than the claimed 14: results.push on line 159 sits inside the
per-page try, so the timeout skips the push for page 7. -/
theorem results_not_always_fourteen :
    (scrapeNARA c1RunEnv).error = none ∧
    ((scrapeNARA c1RunEnv).resultsContent.map List.length) = some 13 := ⟨rfl, rfl⟩

/-- C1 (amended): in a run where every step outside the loop succeeds and
every page's wait, click and image-read sub-steps succeed, the sequence
written to scrape_results.json has exactly 14 entries whose entry at
0-based position k carries page number k plus 1; a transcription sub-step
failure alone never omits an entry, but the count 14 is only guaranteed
under success of the wait, click and image-read sub-steps, a page whose
wait, click or image read throws being omitted entirely. -/
theorem scrape_results_complete (env : RunEnv)
    (hl : env.launch = none) (hg : env.goto = none) (hi : env.itemData = none)
    (hwa : env.writeApi = none) (hwr : env.writeResults = none)
    (hp : ∀ i ∈ pageIndices, (env.pages i).wait = none ∧
      (∃ c, (env.pages i).clickEval = Except.ok c) ∧
      (∃ u, (env.pages i).imageEval = Except.ok u)) :
    ∃ l, (scrapeNARA env).resultsContent = some l ∧ l.length = 14 ∧
      ∀ k, k < 14 → (l[k]?).map (fun r => r.page) = some (k + 1) := by
  have hmap : (pageLoopResults env.pages).map (fun r => r.page) = pageIndices := by
    rw [pageLoopResults_eq]
    exact results_pages_of_ok env.pages pageIndices hp
  have hlen : (pageLoopResults env.pages).length = 14 := by
    have hl2 := congrArg List.length hmap
    simpa [pageIndices] using hl2
  refine ⟨pageLoopResults env.pages, ?_, hlen, ?_⟩
  · simp [scrapeNARA, hl, hg, hi, hwa, hwr]
  · intro k hk14
    have h2 := congrArg (fun t => t[k]?) hmap
    simp only [List.getElem?_map] at h2
    rw [h2]
    simp [pageIndices, List.getElem?_map, List.getElem?_range, hk14]

/-- Concrete instance of scrape_results_complete at the all-success run:
the written sequence has 14 entries. -/
theorem scrape_results_complete_witness :
    ((scrapeNARA okRunEnv).resultsContent.map List.length) = some 14 := by
  obtain ⟨l, h1, h2, _⟩ := scrape_results_complete okRunEnv rfl rfl rfl rfl rfl
    (fun i _ => ⟨rfl, ⟨true, rfl⟩,
      ⟨some "https://s3.amazonaws.com/NARAprodstorage/img.jpg", rfl⟩⟩)
  rw [h1]
  simp [h2]

/-- C2 counterexample: with page 7's thumbnail click evaluate throwing and
every other sub-step succeeding, the results list carries entries for
pages 1 to 6 and 8 to 14 only: page 7 has no entry at all, rather than the
claimed entry with a null image URL and empty transcription, because the
push on line 159 is skipped once the outer catch runs. -/
theorem click_throw_entry_absent :
    (pageLoopResults c2Envs).map (fun r => r.page) =
      [1, 2, 3, 4, 5, 6, 8, 9, 10, 11, 12, 13, 14] := rfl

/-- Helper: the error line of the outer per-page catch contains the
decimal numeral of the page it reports. -/
theorem errLog_names_page (j : Nat) (msg : String) :
    strContains (errLog j msg) (toString j) = true := by
  apply strContains_of_infix
  refine ⟨"Error processing page ".data, (": " ++ msg).data, ?_⟩
  simp [errLog, String.data_append, List.append_assoc]

/-- C2 (amended): when the thumbnail click for page j throws and every
other page's wait, click and image-read sub-steps succeed, the results
list carries the entries of all pages except j in their loop order, page
j receiving no entry at all; the outer catch emits the error line naming
page j (its text contains the decimal numeral of j) and the loop carries
on through the pages after j. -/
theorem click_throw_skips_page (j : Nat) (msg : String) (envs : Nat → PageEnv)
    (hj : j ∈ pageIndices)
    (hwj : (envs j).wait = none) (hcj : (envs j).clickEval = Except.error msg)
    (hok : ∀ i ∈ pageIndices, i ≠ j → (envs i).wait = none ∧
      (∃ c, (envs i).clickEval = Except.ok c) ∧ (∃ u, (envs i).imageEval = Except.ok u)) :
    (pageLoopResults envs).map (fun r => r.page) = pageIndices.filter (fun i => decide (i ≠ j)) ∧
    errLog j msg ∈ pageLoopLogs envs ∧
    strContains (errLog j msg) (toString j) = true := by
  refine ⟨?_, ?_, errLog_names_page j msg⟩
  · have hcong : pageIndices.filterMap
        (fun i => ((processPage i (envs i)).1).map (fun r => r.page)) =
        pageIndices.filterMap (fun i => if i = j then none else some i) := by
      apply List.filterMap_congr
      intro i hi
      by_cases hij : i = j
      · subst hij
        have he := processPage_click_error i (envs i) msg hwj hcj
        simp [he]
      · obtain ⟨hw, ⟨c, hc⟩, ⟨u, hu⟩⟩ := hok i hi hij
        have ho := processPage_ok i (envs i) c u hw hc hu
        simp [ho, hij]
    rw [pageLoopResults_eq, List.map_filterMap, hcong, filterMap_skip_eq_filter]
  · rw [pageLoopLogs_eq]
    apply List.mem_flatten.mpr
    refine ⟨[procLog j, errLog j msg], ?_, by simp⟩
    have h2 : (processPage j (envs j)).2 = [procLog j, errLog j msg] := by
      rw [processPage_click_error j (envs j) msg hwj hcj]
    rw [← h2]
    exact List.mem_map_of_mem (fun i => (processPage i (envs i)).2) hj

/-- Concrete instance of click_throw_skips_page at the page 7 click
failure: pages other than 7 present in order, page 7 absent, with the
error line naming page 7 in the log. -/
theorem click_throw_skips_page_witness :
    (pageLoopResults c2Envs).map (fun r => r.page) =
      pageIndices.filter (fun i => decide (i ≠ 7)) ∧
    errLog 7 "Evaluation failed: node detached" ∈ pageLoopLogs c2Envs ∧
    strContains (errLog 7 "Evaluation failed: node detached") (toString 7) = true := by
  refine click_throw_skips_page 7 "Evaluation failed: node detached" c2Envs (by decide) rfl rfl ?_
  intro i hi hij
  refine ⟨?_, ⟨true, ?_⟩, ⟨some "https://s3.amazonaws.com/NARAprodstorage/img.jpg", ?_⟩⟩ <;>
    simp [c2Envs, hij, okEnv]

/-- Helper: the observer fold appends exactly the matched responses whose
bodies parsed, in arrival order, and never touches the log. -/
theorem captureRun_foldl (rs : List NetResponse) (acc : List Capture × List String) :
    rs.foldl handleResponse acc =
      (acc.1 ++ rs.filterMap (fun r =>
          if matchesEndpoint r.url then (r.jsonBody).map (fun d => ⟨r.url, d⟩) else none),
        acc.2) := by
  induction rs generalizing acc with
  | nil => simp
  | cons r rs ih =>
    rw [List.foldl_cons, ih]
    unfold handleResponse
    by_cases hm : matchesEndpoint r.url = true
    · cases hb : r.jsonBody <;> simp [hm, hb, List.filterMap_cons, List.append_assoc]
    · simp only [Bool.not_eq_true] at hm
      simp [hm, List.filterMap_cons]

/-- C6: the capture sequence equals, in arrival order, the matched
responses whose bodies parsed, each contributing its url and data pair;
consequently every entry of the sequence has a URL containing one of the
three endpoint substrings, and a response matching none of them never
appears in it. -/
theorem capture_sequence_spec (rs : List NetResponse) :
    (captureRun rs).1 = rs.filterMap (fun r =>
        if matchesEndpoint r.url then (r.jsonBody).map (fun d => ⟨r.url, d⟩) else none) ∧
    ∀ c ∈ (captureRun rs).1, matchesEndpoint c.url = true := by
  have h := captureRun_foldl rs ([], [])
  constructor
  · unfold captureRun
    rw [h]
    simp
  · intro c hc
    unfold captureRun at hc
    rw [h] at hc
    simp only [List.nil_append] at hc
    obtain ⟨r, _hr, hfr⟩ := List.mem_filterMap.mp hc
    by_cases hm : matchesEndpoint r.url = true
    · rw [if_pos hm] at hfr
      obtain ⟨d, _hd, hda⟩ := Option.map_eq_some'.mp hfr
      rw [← hda]
      exact hm
    · rw [if_neg hm] at hfr
      simp at hfr

/-- Response stream with one matched JSON response, one matched non-JSON
response and one unmatched response. -/
def exResponses : List NetResponse :=
  [⟨"https://catalog.archives.gov/proxy/v3/records/search", some Json.null⟩,
   ⟨"https://catalog.archives.gov/proxy/contributions/targetNaId", none⟩,
   ⟨"https://static.archives.gov/app.js", some (Json.str "code")⟩]

/-- Concrete instance of capture_sequence_spec: only the matched JSON
response of the three is captured. -/
theorem capture_sequence_spec_witness :
    (captureRun exResponses).1 =
      [⟨"https://catalog.archives.gov/proxy/v3/records/search", Json.null⟩] := by
  rw [(capture_sequence_spec exResponses).1]
  rfl
